import Mathlib

/-!
Verification of the labchain-web authentication and submission-review core
(src/lib/auth.ts, src/lib/data.ts, schema from src/lib/db.ts).

The SQLite store is modelled as a record of lists of rows, one list per
table, in insertion (rowid) order.  SQL statements become list operations:
`.get` on a WHERE clause is `List.find?`, `DELETE ... WHERE` is
`List.filter` with the negated condition, `UPDATE ... WHERE id = ?` is
`List.map` with a conditional rewrite.  TEXT columns are `String`
(nullable ones `Option String`); SQLite compares TEXT with the BINARY
collation, i.e. bytewise, which for the ASCII strings involved here is the
lexicographic order on `String`.

Ambient effects are made explicit arguments:
  * the clock is a millisecond Unix timestamp `nowMs : Nat`; the JS
    `Date.toISOString` rendering and the SQLite `datetime(now)` /
    `CURRENT_TIMESTAMP` rendering are implemented below;
  * `crypto.randomBytes(n).toString(hex)` outputs are passed in as explicit
    string arguments (`salt`, `sessionId`, `randHex`);
  * the SHA-256 hex digest is an explicit function argument
    `sha256hex : String → String` (the claims depend only on it being a
    deterministic function with colon-free fixed-length hex output, which
    holds of the real digest).
-/

namespace Labchain

/-- JS `a || b` for two strings: the empty string is falsy. -/
def jsOrS (a b : String) : String := if a = "" then b else a

/-- JS `a || b` where `a` is a possibly `null`/`undefined` string. -/
def jsOrO (a : Option String) (b : String) : String :=
  match a with
  | none => b
  | some s => jsOrS s b

/-- Worker for `jsSplitColon`: `acc` holds the current chunk reversed. -/
def splitColonAux : List Char → List Char → List String
  | [], acc => [String.mk acc.reverse]
  | c :: cs, acc =>
    if c = ':' then String.mk acc.reverse :: splitColonAux cs []
    else splitColonAux cs (c :: acc)

/-- JS `s.split(":")`: splits at every colon; the empty string yields
`[""]`, like in JS. -/
def jsSplitColon (s : String) : List String := splitColonAux s.data []

/-- JS `s.toUpperCase()` restricted to the ASCII content it is applied to
here (hex digits). -/
def jsToUpperCase (s : String) : String := String.mk (s.data.map Char.toUpper)

/-- Zero-pad a numeral to two digits. -/
def pad2 (n : Nat) : String := if n < 10 then "0" ++ toString n else toString n

/-- Zero-pad a numeral to three digits. -/
def pad3 (n : Nat) : String :=
  if n < 10 then "00" ++ toString n
  else if n < 100 then "0" ++ toString n
  else toString n

/-- Zero-pad a numeral to four digits. -/
def pad4 (n : Nat) : String :=
  if n < 10 then "000" ++ toString n
  else if n < 100 then "00" ++ toString n
  else if n < 1000 then "0" ++ toString n
  else toString n

/-- Proleptic Gregorian date for a count of days since 1970-01-01
(the standard civil-from-days algorithm, specialised to days ≥ 0). -/
def civilFromDays (z0 : Nat) : Nat × Nat × Nat :=
  let z := z0 + 719468
  let era := z / 146097
  let doe := z % 146097
  let yoe := (doe - doe / 1460 + doe / 36524 - doe / 146096) / 365
  let y := yoe + era * 400
  let doy := doe - (365 * yoe + yoe / 4 - yoe / 100)
  let mp := (5 * doy + 2) / 153
  let d := doy - (153 * mp + 2) / 5 + 1
  let m := if mp < 10 then mp + 3 else mp - 9
  (if m ≤ 2 then y + 1 else y, m, d)

/-- Clock fields (hour, minute, second, millisecond and day count) of a
millisecond Unix timestamp. -/
def clockFields (ms : Nat) : Nat × Nat × Nat × Nat × Nat :=
  let msRem := ms % 1000
  let totalSec := ms / 1000
  let s := totalSec % 60
  let totalMin := totalSec / 60
  let mi := totalMin % 60
  let totalH := totalMin / 60
  let h := totalH % 24
  let days := totalH / 24
  (days, h, mi, s, msRem)

/-- JS `new Date(ms).toISOString()`: `YYYY-MM-DDTHH:MM:SS.mmmZ`. -/
def toISOString (ms : Nat) : String :=
  let (days, h, mi, s, msRem) := clockFields ms
  let (y, mo, d) := civilFromDays days
  pad4 y ++ "-" ++ pad2 mo ++ "-" ++ pad2 d ++ "T" ++
    pad2 h ++ ":" ++ pad2 mi ++ ":" ++ pad2 s ++ "." ++ pad3 msRem ++ "Z"

/-- SQLite `datetime(now)` / `CURRENT_TIMESTAMP`: `YYYY-MM-DD HH:MM:SS`. -/
def sqliteNow (ms : Nat) : String :=
  let (days, h, mi, s, _) := clockFields ms
  let (y, mo, d) := civilFromDays days
  pad4 y ++ "-" ++ pad2 mo ++ "-" ++ pad2 d ++ " " ++
    pad2 h ++ ":" ++ pad2 mi ++ ":" ++ pad2 s

/-- Lexicographic comparison of character lists by code point. -/
def charListLt : List Char → List Char → Bool
  | [], [] => false
  | [], _ :: _ => true
  | _ :: _, [] => false
  | a :: as, b :: bs =>
    if a.toNat < b.toNat then true
    else if b.toNat < a.toNat then false
    else charListLt as bs

/-- SQLite TEXT `<` (BINARY collation, i.e. bytewise memcmp; the strings
compared here are ASCII, for which bytewise order is code-point order). -/
def sqlTextLt (a b : String) : Bool := charListLt a.data b.data

/-! ## Data model: one structure per table of src/lib/db.ts -/

/-- Row of the `users` table. -/
structure User where
  id : Nat
  username : String
  password_hash : String
  created_at : String
  updated_at : String
  deriving Repr, DecidableEq

/-- Row of the `sessions` table. -/
structure SessionRow where
  id : String
  user_id : Nat
  expires_at : String
  created_at : String
  deriving Repr, DecidableEq

/-- Row of the `rpc_endpoints` table (`type` is a column name in the
schema; it is a valid field name here as well). -/
structure RpcEndpoint where
  id : Nat
  name : String
  endpoint : String
  type : String
  location : Option String
  status : String
  latency : Option String
  requests : Option String
  rate_limit : Option String
  features : Option String
  created_at : String
  updated_at : String
  deriving Repr, DecidableEq

/-- Row of the `boot_nodes` table. -/
structure BootNode where
  id : Nat
  name : String
  enode : String
  location : Option String
  status : String
  uptime : Option String
  peers : Nat
  last_seen : Option String
  created_at : String
  updated_at : String
  deriving Repr, DecidableEq

/-- Row of the `beacon_nodes` table (`endpoint` is nullable after the
migration in db.ts). -/
structure BeaconNode where
  id : Nat
  name : String
  endpoint : Option String
  enr : Option String
  p2p : Option String
  location : Option String
  status : String
  version : Option String
  sync_status : Option String
  slots : Option String
  epoch : Option String
  last_update : Option String
  created_at : String
  updated_at : String
  deriving Repr, DecidableEq

/-- Row of the `node_requests` table. -/
structure NodeRequest where
  id : Nat
  tracking_id : String
  node_type : String
  name : String
  endpoint : String
  location : Option String
  contact_email : String
  contact_name : Option String
  description : Option String
  status : String
  admin_notes : Option String
  created_at : String
  updated_at : String
  deriving Repr, DecidableEq

/-- The database state: one list of rows per table, in rowid order.
The `settings` and `token_requests` tables are not read or written by any
operation verified here and are omitted. -/
structure Db where
  users : List User
  sessions : List SessionRow
  rpc_endpoints : List RpcEndpoint
  boot_nodes : List BootNode
  beacon_nodes : List BeaconNode
  node_requests : List NodeRequest
  deriving Repr, DecidableEq

/-- The empty database. -/
def Db.empty : Db := ⟨[], [], [], [], [], []⟩

/-- `INTEGER PRIMARY KEY AUTOINCREMENT` id for a fresh row, modelled as one
more than the largest id present. -/
def nextRowId (ids : List Nat) : Nat := ids.foldr max 0 + 1

/-! ## src/lib/auth.ts -/

/-- `hashPassword`: the fresh random salt (`randomBytes(16).toString(hex)`,
32 lowercase hex characters) is an explicit argument; the stored value is
`salt:hash` with `hash = sha256hex(password ++ salt)`. -/
def hashPassword (sha256hex : String → String) (password salt : String) : String :=
  salt ++ ":" ++ sha256hex (password ++ salt)

/-- `verifyPassword`: splits the stored value at colons, recomputes the
digest with the first component as salt, and compares with
`timingSafeEqual`.  The two JS throw sites are both inside the
`try`/`catch` that returns `false`: `Buffer.from(hash)` when the split has
no second component (`hash` is `undefined`), and `timingSafeEqual` when
the two buffers have different byte lengths; both are modelled as the
`false` branches below. -/
def verifyPassword (sha256hex : String → String) (password storedHash : String) : Bool :=
  let parts := jsSplitColon storedHash
  let salt := parts.headD ""
  let inputHash := sha256hex (password ++ salt)
  match parts[1]? with
  | none => false
  | some hash =>
    if hash.utf8ByteSize = inputHash.utf8ByteSize then hash == inputHash
    else false

/-- The `INSERT INTO users` statement of `createUser`.  `fault` is an
oracle for a storage-layer error thrown by the driver (`some msg` = the
statement throws with message `msg`); with a healthy store the only
possible error is the UNIQUE constraint on `username`. -/
def usersInsert (s : Db) (fault : Option String) (username passwordHash : String)
    (nowMs : Nat) : Except String (User × Db) :=
  match fault with
  | some msg => Except.error msg
  | none =>
    if s.users.any (fun u => u.username == username) then
      Except.error "UNIQUE constraint failed: users.username"
    else
      let u : User :=
        ⟨nextRowId (s.users.map (·.id)), username, passwordHash,
          sqliteNow nowMs, sqliteNow nowMs⟩
      Except.ok (u, { s with users := s.users ++ [u] })

/-- `createUser`: hashes the password and inserts; the `catch` block logs
and returns `null` for every error, so any failure surfaces as `none`. -/
def createUser (s : Db) (fault : Option String) (sha256hex : String → String)
    (username password salt : String) (nowMs : Nat) : Option User × Db :=
  match usersInsert s fault username (hashPassword sha256hex password salt) nowMs with
  | Except.ok (u, s') => (some u, s')
  | Except.error _ => (none, s)

/-- `getUserByUsername`. -/
def getUserByUsername (s : Db) (username : String) : Option User :=
  s.users.find? (fun u => u.username == username)

/-- `createSession`: inserts a session expiring `now + 7 days` (stored via
`Date.toISOString`), then deletes every session with
`expires_at < datetime(now)` (SQLite TEXT comparison). -/
def createSession (s : Db) (sessionId : String) (userId : Nat) (nowMs : Nat) :
    String × Db :=
  let expiresAt := toISOString (nowMs + 7 * 24 * 60 * 60 * 1000)
  let inserted := s.sessions ++ [⟨sessionId, userId, expiresAt, sqliteNow nowMs⟩]
  let cleaned := inserted.filter (fun row => ! sqlTextLt row.expires_at (sqliteNow nowMs))
  (sessionId, { s with sessions := cleaned })

/-- `getSession`: `SELECT * FROM sessions WHERE id = ? AND expires_at >
datetime(now)` (SQLite TEXT comparison). -/
def getSession (s : Db) (sessionId : String) (nowMs : Nat) : Option SessionRow :=
  s.sessions.find? (fun row =>
    row.id == sessionId && sqlTextLt (sqliteNow nowMs) row.expires_at)

/-- Result shape of `updateUsername` / `updatePassword`. -/
structure UpdateResult where
  success : Bool
  error : Option String
  deriving Repr, DecidableEq

/-- The try-block of `updateUsername`: the UPDATE statement (which cannot
violate the unique constraint after the pre-check) and the success
result. -/
def runUsernameUpdate (s : Db) (userId : Nat) (newUsername : String)
    (nowMs : Nat) : UpdateResult × Db :=
  (⟨true, none⟩, { s with users := s.users.map (fun u =>
    if u.id = userId then
      { u with username := newUsername, updated_at := sqliteNow nowMs }
    else u) })

/-- `updateUsername`: pre-checks for another user holding the new name and
returns the distinguishable error (the early return of the source);
otherwise updates the row. -/
def updateUsername (s : Db) (userId : Nat) (newUsername : String) (nowMs : Nat) :
    UpdateResult × Db :=
  match getUserByUsername s newUsername with
  | some existing =>
    if existing.id ≠ userId then (⟨false, some "Username already exists"⟩, s)
    else runUsernameUpdate s userId newUsername nowMs
  | none => runUsernameUpdate s userId newUsername nowMs

/-! ## src/lib/data.ts -/

/-- `createRpcEndpoint`: inserts `(name, endpoint, type)`; the remaining
columns take their schema defaults (`status` = active, others NULL). -/
def createRpcEndpoint (s : Db) (name endpoint type : String) (nowMs : Nat) :
    RpcEndpoint × Db :=
  let row : RpcEndpoint :=
    { id := nextRowId (s.rpc_endpoints.map (·.id)),
      name := name, endpoint := endpoint, type := type,
      location := none, status := "active", latency := none, requests := none,
      rate_limit := none, features := none,
      created_at := sqliteNow nowMs, updated_at := sqliteNow nowMs }
  (row, { s with rpc_endpoints := s.rpc_endpoints ++ [row] })

/-- `createBootNode`: inserts `(name, enode)`; defaults for the rest
(`status` = active, `peers` = 0, others NULL). -/
def createBootNode (s : Db) (name enode : String) (nowMs : Nat) : BootNode × Db :=
  let row : BootNode :=
    { id := nextRowId (s.boot_nodes.map (·.id)),
      name := name, enode := enode,
      location := none, status := "active", uptime := none, peers := 0,
      last_seen := none,
      created_at := sqliteNow nowMs, updated_at := sqliteNow nowMs }
  (row, { s with boot_nodes := s.boot_nodes ++ [row] })

/-- `createBeaconNode`: inserts `(name, enr || empty, p2p || empty)`; the
`endpoint` column is not in the column list and stays NULL. -/
def createBeaconNode (s : Db) (name : String) (enr p2p : Option String)
    (nowMs : Nat) : BeaconNode × Db :=
  let row : BeaconNode :=
    { id := nextRowId (s.beacon_nodes.map (·.id)),
      name := name, endpoint := none,
      enr := some (jsOrO enr ""), p2p := some (jsOrO p2p ""),
      location := none, status := "active", version := none, sync_status := none,
      slots := none, epoch := none, last_update := none,
      created_at := sqliteNow nowMs, updated_at := sqliteNow nowMs }
  (row, { s with beacon_nodes := s.beacon_nodes ++ [row] })

/-- `generateTrackingId`: the `randomBytes(4).toString(hex)` output (8
lowercase hex characters) is an explicit argument. -/
def generateTrackingId (randHex : String) : String :=
  "REQ-" ++ jsToUpperCase randHex

/-- `getNodeRequestById`. -/
def getNodeRequestById (s : Db) (id : Nat) : Option NodeRequest :=
  s.node_requests.find? (fun r => r.id == id)

/-- Result shape of `isEndpointDuplicate` (the source field `exists` is a
Lean keyword; it is named `found` here). -/
structure DupResult where
  found : Bool
  location : String
  deriving Repr, DecidableEq

/-- `isEndpointDuplicate`: first any non-rejected request for the
endpoint, then the directory table selected by `nodeType`.  The beacon
branch queries the `endpoint` column of `beacon_nodes` (a NULL `endpoint`
matches nothing). -/
def isEndpointDuplicate (s : Db) (endpoint nodeType : String) : DupResult :=
  match s.node_requests.find? (fun r => r.endpoint == endpoint && r.status != "rejected") with
  | some _ => ⟨true, "pending request"⟩
  | none =>
    if nodeType = "rpc" then
      match s.rpc_endpoints.find? (fun e => e.endpoint == endpoint) with
      | some _ => ⟨true, "RPC endpoints"⟩
      | none => ⟨false, ""⟩
    else if nodeType = "bootnode" then
      match s.boot_nodes.find? (fun b => b.enode == endpoint) with
      | some _ => ⟨true, "Boot nodes"⟩
      | none => ⟨false, ""⟩
    else if nodeType = "beacon" then
      match s.beacon_nodes.find? (fun b => b.endpoint == some endpoint) with
      | some _ => ⟨true, "Beacon nodes"⟩
      | none => ⟨false, ""⟩
    else ⟨false, ""⟩

/-- The submission payload accepted by `createNodeRequest`; it carries no
status field. -/
structure NodeRequestPayload where
  node_type : String
  name : String
  endpoint : String
  description : Option String
  contact_name : Option String
  contact_email : Option String
  deriving Repr, DecidableEq

/-- `createNodeRequest`: inserts with a generated tracking id, `location`
= empty string, `status` hardcoded to pending in the SQL, and `admin_notes`
absent from the column list (NULL). -/
def createNodeRequest (s : Db) (payload : NodeRequestPayload) (randHex : String)
    (nowMs : Nat) : NodeRequest × Db :=
  let trackingId := generateTrackingId randHex
  let row : NodeRequest :=
    { id := nextRowId (s.node_requests.map (·.id)),
      tracking_id := trackingId,
      node_type := payload.node_type,
      name := payload.name,
      endpoint := payload.endpoint,
      location := some "",
      contact_email := jsOrO payload.contact_email "",
      contact_name := some (jsOrO payload.contact_name ""),
      description := some (jsOrO payload.description ""),
      status := "pending",
      admin_notes := none,
      created_at := sqliteNow nowMs, updated_at := sqliteNow nowMs }
  (row, { s with node_requests := s.node_requests ++ [row] })

/-- `updateNodeRequestStatus`: refuses unknown ids, otherwise rewrites
status, admin notes (`adminNotes || existing.admin_notes || empty`) and
`updated_at` of the addressed row, and returns the re-fetched row. -/
def updateNodeRequestStatus (s : Db) (id : Nat) (status : String)
    (adminNotes : Option String) (nowMs : Nat) : Option NodeRequest × Db :=
  match getNodeRequestById s id with
  | none => (none, s)
  | some existing =>
    let notes := jsOrO adminNotes (jsOrO existing.admin_notes "")
    let s' := { s with node_requests := s.node_requests.map (fun r =>
      if r.id = id then
        { r with status := status, admin_notes := some notes,
                 updated_at := sqliteNow nowMs }
      else r) }
    (getNodeRequestById s' id, s')

/-- Result shape of `approveAndCreateNode`. -/
structure ApproveResult where
  success : Bool
  error : Option String
  deriving Repr, DecidableEq

/-- `approveAndCreateNode`: looks the request up, creates the directory
row selected by `node_type` (for beacon submissions the user-submitted
`endpoint` field is stored as the ENR), then marks the request approved.
None of the statements can throw against a healthy store, so the `catch`
branch of the source is unreachable in this model. -/
def approveAndCreateNode (s : Db) (requestId : Nat) (nowMs : Nat) :
    ApproveResult × Db :=
  match getNodeRequestById s requestId with
  | none => (⟨false, some "Request not found"⟩, s)
  | some request =>
    let s1 :=
      if request.node_type = "rpc" then
        (createRpcEndpoint s request.name request.endpoint "community" nowMs).2
      else if request.node_type = "bootnode" then
        (createBootNode s request.name request.endpoint nowMs).2
      else if request.node_type = "beacon" then
        (createBeaconNode s request.name (some request.endpoint) (some "") nowMs).2
      else s
    let s2 := (updateNodeRequestStatus s1 requestId "approved" none nowMs).2
    (⟨true, none⟩, s2)

/-- `approveAndCreateNode` with a storage-fault oracle for the statements
inside its try block.  Each statement runs in its own implicit SQLite
transaction (the source opens no explicit transaction), so work done by
earlier statements persists when a later one throws.  `fault = some msg`
means the status-update step throws a SqliteError with message `msg`
after the directory insert has been persisted; the catch block of the
source maps the throw to `{success: false, error: String(error)}`.
`fault = none` is the healthy-store run, which coincides with
`approveAndCreateNode` (see `approveAndCreateNodeWith_none`). -/
def approveAndCreateNodeWith (s : Db) (fault : Option String) (requestId : Nat)
    (nowMs : Nat) : ApproveResult × Db :=
  match getNodeRequestById s requestId with
  | none => (⟨false, some "Request not found"⟩, s)
  | some request =>
    let s1 :=
      if request.node_type = "rpc" then
        (createRpcEndpoint s request.name request.endpoint "community" nowMs).2
      else if request.node_type = "bootnode" then
        (createBootNode s request.name request.endpoint nowMs).2
      else if request.node_type = "beacon" then
        (createBeaconNode s request.name (some request.endpoint) (some "") nowMs).2
      else s
    match fault with
    | some msg => (⟨false, some msg⟩, s1)
    | none =>
      let s2 := (updateNodeRequestStatus s1 requestId "approved" none nowMs).2
      (⟨true, none⟩, s2)

/-! ## Spec-side definitions -/

/-- Modelled from the spec: the tracking-id pattern `REQ-` followed by
exactly 8 uppercase hexadecimal characters (the regex REQ dash
[0-9A-F]x8 of claim C7), written out over the character list. -/
def matchesReqPatternL : List Char → Bool
  | c1 :: c2 :: c3 :: c4 :: rest =>
    c1 == 'R' && c2 == 'E' && c3 == 'Q' && c4 == '-' &&
      rest.length == 8 && rest.all (fun c => c.isDigit || ('A' ≤ c && c ≤ 'F'))
  | _ => false

/-- The tracking-id regex, applied to the character list of a string. -/
def matchesReqPattern (s : String) : Bool := matchesReqPatternL s.data

/-- The characters that `randomBytes(n).toString(hex)` can produce: the
decimal digits followed by the first six lowercase letters. -/
def hexLowerChars : List Char :=
  (List.range 10).map (fun n => Char.ofNat (48 + n)) ++
    (List.range 6).map (fun n => Char.ofNat (97 + n))

/-! ## Concrete scenario states used by witnesses and counterexamples -/

/-- A pending bootnode submission, as `createNodeRequest` stores it. -/
def sampleBootRequest : NodeRequest :=
  { id := 1, tracking_id := "REQ-AAAA1111", node_type := "bootnode",
    name := "BN", endpoint := "enode://abc@1.2.3.4:30303", location := some "",
    contact_email := "a@b.c", contact_name := some "", description := some "",
    status := "pending", admin_notes := none,
    created_at := "2025-01-10 00:00:00", updated_at := "2025-01-10 00:00:00" }

/-- Database holding only `sampleBootRequest`. -/
def sampleDb : Db := { Db.empty with node_requests := [sampleBootRequest] }

/-- Database where the only request for the sample endpoint is rejected. -/
def rejectedDb : Db :=
  { Db.empty with node_requests := [{ sampleBootRequest with status := "rejected" }] }

/-- 2025-01-15T10:00:00Z in Unix milliseconds. -/
def tJan15at10 : Nat := 1736935200000

/-- Milliseconds in 7 days. -/
def sevenDaysMs : Nat := 7 * 24 * 60 * 60 * 1000

/-- A concrete digest function for witnesses: two distinct colon-free
outputs (any deterministic function is admissible for the parameter). -/
def digestToy (s : String) : String := if s = "pwab" then "aaaa" else "bbbb"

/-- A concrete digest function with 64-character output, matching the
SHA-256 hex digest length. -/
def digest64 (_s : String) : String := String.mk (List.replicate 64 'a')

/-- State produced by the code itself: a session created 7 days before
2025-01-15T10:00:00Z, hence stored with that expiry. -/
def c3created : Db := (createSession Db.empty "tok" 1 (tJan15at10 - sevenDaysMs)).2

/-- State with one session that expired at 2025-01-15T08:00:00Z, again
created by the code itself. -/
def c8pre : Db := (createSession Db.empty "old" 7 (1736928000000 - sevenDaysMs)).2

/-- `c8pre` after a second session is created at 2025-01-15 09:00:00 UTC,
one hour after the first session expired. -/
def c8post : Db := (createSession c8pre "newid" 1 1736931600000).2

/-- An existing admin account. -/
def adminUser : User :=
  ⟨1, "admin", "ab:cd", "2025-01-01 00:00:00", "2025-01-01 00:00:00"⟩

/-- Database holding only `adminUser`. -/
def adminDb : Db := { Db.empty with users := [adminUser] }

/-- The row rewrite performed by the UPDATE statement of
`updateNodeRequestStatus` (with the admin-notes value already resolved). -/
def applyStatusPatch (id : Nat) (st notes nowStr : String) (q : NodeRequest) :
    NodeRequest :=
  if q.id = id then
    { q with status := st, admin_notes := some notes, updated_at := nowStr }
  else q

/-! ## Helper lemmas -/

theorem find?_map_congr {α : Type} (f : α → α) (p : α → Bool)
    (hp : ∀ a, p (f a) = p a) (l : List α) :
    (l.map f).find? p = (l.find? p).map f := by
  induction l with
  | nil => rfl
  | cons a t ih =>
    by_cases h : p a = true
    · rw [List.map_cons, List.find?_cons_of_pos _ (by rw [hp]; exact h),
        List.find?_cons_of_pos _ h]
      rfl
    · rw [List.map_cons, List.find?_cons_of_neg _ (by rw [hp]; exact h),
        List.find?_cons_of_neg _ h, ih]

theorem exists_find?_eq_some_of_mem {α : Type} (p : α → Bool) (l : List α)
    (r : α) (hm : r ∈ l) (hp : p r = true) : ∃ x, l.find? p = some x := by
  induction l with
  | nil => cases hm
  | cons a t ih =>
    by_cases h : p a = true
    · exact ⟨a, List.find?_cons_of_pos _ h⟩
    · rcases List.mem_cons.mp hm with rfl | hm'
      · exact absurd hp h
      · rw [List.find?_cons_of_neg _ h]
        exact ih hm'

theorem splitColonAux_of_not_mem (xs : List Char) (acc : List Char)
    (h : ':' ∉ xs) : splitColonAux xs acc = [String.mk (acc.reverse ++ xs)] := by
  induction xs generalizing acc with
  | nil => simp [splitColonAux]
  | cons c cs ih =>
    have h1 : ':' ∉ cs := fun hh => h (List.mem_cons_of_mem _ hh)
    have h2 : ¬ c = ':' := fun hh => h (by rw [hh]; exact List.mem_cons_self _ _)
    simp [splitColonAux, if_neg h2, ih _ h1, List.append_assoc]

theorem splitColonAux_append (xs ys : List Char) (acc : List Char)
    (h : ':' ∉ xs) :
    splitColonAux (xs ++ ':' :: ys) acc =
      String.mk (acc.reverse ++ xs) :: splitColonAux ys [] := by
  induction xs generalizing acc with
  | nil => simp [splitColonAux]
  | cons c cs ih =>
    have h1 : ':' ∉ cs := fun hh => h (List.mem_cons_of_mem _ hh)
    have h2 : ¬ c = ':' := fun hh => h (by rw [hh]; exact List.mem_cons_self _ _)
    simp [splitColonAux, if_neg h2, ih _ h1, List.append_assoc]

theorem jsSplitColon_single (s : String) (h : ':' ∉ s.data) :
    jsSplitColon s = [s] := by
  unfold jsSplitColon
  rw [splitColonAux_of_not_mem _ _ h]
  rfl

theorem jsSplitColon_pair (a b : String) (ha : ':' ∉ a.data) (hb : ':' ∉ b.data) :
    jsSplitColon (a ++ ":" ++ b) = [a, b] := by
  unfold jsSplitColon
  have hd : (a ++ ":" ++ b).data = a.data ++ ':' :: b.data := by
    rw [String.data_append, String.data_append, List.append_assoc]
    rfl
  rw [hd, splitColonAux_append _ _ _ ha, splitColonAux_of_not_mem _ _ hb]
  rfl

theorem applyStatusPatch_id (id : Nat) (st notes nowStr : String) (q : NodeRequest) :
    (applyStatusPatch id st notes nowStr q).id = q.id := by
  unfold applyStatusPatch
  by_cases hq : q.id = id <;> simp [hq]

theorem verifyPassword_split (H : String → String) (p salt hash stored : String)
    (hsplit : jsSplitColon stored = [salt, hash]) :
    verifyPassword H p stored =
      if hash.utf8ByteSize = (H (p ++ salt)).utf8ByteSize then hash == H (p ++ salt)
      else false := by
  unfold verifyPassword
  rw [hsplit]
  rfl

theorem getNodeRequestById_map_patch (l : List NodeRequest) (id : Nat)
    (st notes nowStr : String) :
    (l.map (applyStatusPatch id st notes nowStr)).find? (fun q => q.id == id) =
      (l.find? (fun q => q.id == id)).map (applyStatusPatch id st notes nowStr) :=
  find?_map_congr _ _ (fun a => by rw [applyStatusPatch_id]) l

theorem updateNRS_not_found (s : Db) (id : Nat) (st : String) (notes : Option String)
    (now : Nat) (hr : getNodeRequestById s id = none) :
    updateNodeRequestStatus s id st notes now = (none, s) := by
  unfold updateNodeRequestStatus
  rw [hr]

theorem updateNRS_found_snd (s : Db) (id : Nat) (st : String) (notes : Option String)
    (now : Nat) (r : NodeRequest) (hr : getNodeRequestById s id = some r) :
    (updateNodeRequestStatus s id st notes now).2 =
      { s with node_requests := (s.node_requests.map
          (applyStatusPatch id st (jsOrO notes (jsOrO r.admin_notes "")) (sqliteNow now))) } := by
  unfold updateNodeRequestStatus applyStatusPatch
  rw [hr]

theorem updateNRS_found_fst (s : Db) (id : Nat) (st : String) (notes : Option String)
    (now : Nat) (r : NodeRequest) (hr : getNodeRequestById s id = some r) :
    (updateNodeRequestStatus s id st notes now).1 =
      some { r with status := st,
                    admin_notes := some (jsOrO notes (jsOrO r.admin_notes "")),
                    updated_at := sqliteNow now } := by
  have hr' : s.node_requests.find? (fun q => q.id == id) = some r := hr
  have hrid : r.id = id := by simpa using List.find?_some hr'
  unfold updateNodeRequestStatus
  rw [hr]
  show (s.node_requests.map
      (applyStatusPatch id st (jsOrO notes (jsOrO r.admin_notes "")) (sqliteNow now))).find?
      (fun q => q.id == id) = _
  rw [getNodeRequestById_map_patch, hr']
  show some (applyStatusPatch id st _ _ r) = _
  unfold applyStatusPatch
  rw [if_pos hrid]

theorem dup_after_update (s1 : Db) (rid : Nat) (now : Nat) (r : NodeRequest)
    (nt : String) (hr : getNodeRequestById s1 rid = some r) :
    isEndpointDuplicate (updateNodeRequestStatus s1 rid "approved" none now).2
      r.endpoint nt = ⟨true, "pending request"⟩ := by
  have hr0 : s1.node_requests.find? (fun q => q.id == rid) = some r := hr
  have hrid : r.id = rid := by simpa using List.find?_some hr0
  have hmem : r ∈ s1.node_requests := List.mem_of_find?_eq_some hr0
  rw [updateNRS_found_snd s1 rid "approved" none now r hr]
  set f := applyStatusPatch rid "approved" (jsOrO none (jsOrO r.admin_notes "")) (sqliteNow now) with hf
  have hfr : f r = { r with
      status := "approved",
      admin_notes := some (jsOrO none (jsOrO r.admin_notes "")),
      updated_at := sqliteNow now } := by
    rw [hf]
    unfold applyStatusPatch
    rw [if_pos hrid]
  have hmem2 : f r ∈ s1.node_requests.map f := List.mem_map_of_mem f hmem
  have hp : ((f r).endpoint == r.endpoint && (f r).status != "rejected") = true := by
    rw [hfr]
    simp [beq_self_eq_true]
  obtain ⟨x, hx⟩ := exists_find?_eq_some_of_mem
    (fun q => q.endpoint == r.endpoint && q.status != "rejected")
    (s1.node_requests.map f) (f r) hmem2 hp
  unfold isEndpointDuplicate
  rw [hx]

theorem getNodeRequestById_set_nr (s : Db) (l : List NodeRequest) (id : Nat) :
    getNodeRequestById { s with node_requests := l } id =
      l.find? (fun q => q.id == id) := rfl

theorem approveAndCreateNode_not_found (s : Db) (rid : Nat) (now : Nat)
    (hr : getNodeRequestById s rid = none) :
    approveAndCreateNode s rid now = (⟨false, some "Request not found"⟩, s) := by
  unfold approveAndCreateNode
  rw [hr]

theorem approveAndCreateNode_found (s : Db) (rid : Nat) (now : Nat)
    (r : NodeRequest) (hr : getNodeRequestById s rid = some r) :
    approveAndCreateNode s rid now =
      (⟨true, none⟩,
        (updateNodeRequestStatus
          (if r.node_type = "rpc" then
            (createRpcEndpoint s r.name r.endpoint "community" now).2
          else if r.node_type = "bootnode" then
            (createBootNode s r.name r.endpoint now).2
          else if r.node_type = "beacon" then
            (createBeaconNode s r.name (some r.endpoint) (some "") now).2
          else s) rid "approved" none now).2) := by
  unfold approveAndCreateNode
  rw [hr]

theorem approveAndCreateNodeWith_none (s : Db) (rid : Nat) (now : Nat) :
    approveAndCreateNodeWith s none rid now = approveAndCreateNode s rid now := by
  unfold approveAndCreateNodeWith approveAndCreateNode
  cases getNodeRequestById s rid <;> rfl

theorem approveAndCreateNodeWith_not_found (s : Db) (fault : Option String)
    (rid : Nat) (now : Nat) (hr : getNodeRequestById s rid = none) :
    approveAndCreateNodeWith s fault rid now =
      (⟨false, some "Request not found"⟩, s) := by
  unfold approveAndCreateNodeWith
  rw [hr]

theorem approveAndCreateNodeWith_fault_found (s : Db) (rid : Nat) (now : Nat)
    (r : NodeRequest) (msg : String) (hr : getNodeRequestById s rid = some r) :
    approveAndCreateNodeWith s (some msg) rid now =
      (⟨false, some msg⟩,
        if r.node_type = "rpc" then
          (createRpcEndpoint s r.name r.endpoint "community" now).2
        else if r.node_type = "bootnode" then
          (createBootNode s r.name r.endpoint now).2
        else if r.node_type = "beacon" then
          (createBeaconNode s r.name (some r.endpoint) (some "") now).2
        else s) := by
  unfold approveAndCreateNodeWith
  rw [hr]

/-! ## Claims -/

/-- C5: for every password p and every salt choice,
`verifyPassword(p, hashPassword(p))` returns true; and for distinct
passwords p1, p2 whose digests (with the given salt) differ,
`verifyPassword(p1, hashPassword(p2))` returns false.  The digest is an
arbitrary function with colon-free output (as the SHA-256 hex digest is);
the second part carries the collision-freedom proviso of the claim as the
hypothesis that the two digests differ. -/
theorem C5_password_roundtrip (H : String → String) (p p1 p2 salt : String)
    (hsalt : ':' ∉ salt.data)
    (hd1 : ':' ∉ (H (p ++ salt)).data)
    (hd2 : ':' ∉ (H (p2 ++ salt)).data) :
    verifyPassword H p (hashPassword H p salt) = true ∧
    (H (p1 ++ salt) ≠ H (p2 ++ salt) →
      verifyPassword H p1 (hashPassword H p2 salt) = false) := by
  constructor
  · have h1 := verifyPassword_split H p salt (H (p ++ salt)) (hashPassword H p salt)
      (by simp only [hashPassword]; exact jsSplitColon_pair _ _ hsalt hd1)
    rw [h1, if_pos rfl]
    exact beq_self_eq_true _
  · intro hne
    have h1 := verifyPassword_split H p1 salt (H (p2 ++ salt)) (hashPassword H p2 salt)
      (by simp only [hashPassword]; exact jsSplitColon_pair _ _ hsalt hd2)
    rw [h1]
    by_cases hsz : (H (p2 ++ salt)).utf8ByteSize = (H (p1 ++ salt)).utf8ByteSize
    · rw [if_pos hsz]
      exact beq_eq_false_iff_ne.mpr (Ne.symm hne)
    · rw [if_neg hsz]

/-- C5 witness: concrete round trip and concrete cross-password failure. -/
theorem C5_password_roundtrip_witness :
    verifyPassword digestToy "pw" (hashPassword digestToy "pw" "ab") = true ∧
    verifyPassword digestToy "pw" (hashPassword digestToy "qw" "ab") = false := by
  have h := C5_password_roundtrip digestToy "pw" "pw" "qw" "ab"
    (by decide) (by decide) (by decide)
  exact ⟨h.1, h.2 (by decide)⟩

/-- C6: `verifyPassword` is total (every JS throw site is inside the
try/catch modelled by the false branches) and returns false on malformed
stored hashes: the empty string, any string without the colon separator,
and any `salt:hash` whose hash has the wrong length for the digest. -/
theorem C6_verify_false_on_malformed (H : String → String) (p s salt h : String)
    (hlen : ∀ x, (H x).utf8ByteSize = 64) :
    verifyPassword H p "" = false ∧
    (':' ∉ s.data → verifyPassword H p s = false) ∧
    (':' ∉ salt.data → ':' ∉ h.data → h.utf8ByteSize ≠ 64 →
      verifyPassword H p (salt ++ ":" ++ h) = false) := by
  refine ⟨rfl, ?_, ?_⟩
  · intro hs
    unfold verifyPassword
    rw [jsSplitColon_single s hs]
    rfl
  · intro h1 h2 h3
    rw [verifyPassword_split H p salt h _ (jsSplitColon_pair _ _ h1 h2),
      if_neg (fun heq => h3 (heq.trans (hlen _)))]

/-- C6 witness: the three malformed shapes evaluated concretely. -/
theorem C6_verify_false_on_malformed_witness :
    verifyPassword digest64 "pw" "" = false ∧
    verifyPassword digest64 "pw" "nocolonhere" = false ∧
    verifyPassword digest64 "pw" ("ab" ++ ":" ++ "zz") = false := by
  have h := C6_verify_false_on_malformed digest64 "pw" "nocolonhere" "ab" "zz"
    (fun _ => rfl)
  exact ⟨h.1, h.2.1 (by decide), h.2.2 (by decide) (by decide) (by decide)⟩

/-- C7: `createNodeRequest` stores status pending for every payload (the
payload type carries no status and the SQL hardcodes pending), and the
generated tracking id matches `REQ-` followed by exactly 8 uppercase hex
characters, given that the random input is 8 lowercase hex characters as
`randomBytes(4).toString(hex)` produces. -/
theorem C7_pending_status_and_tracking_pattern (s : Db)
    (payload : NodeRequestPayload) (randHex : String) (now : Nat)
    (hlen : randHex.data.length = 8)
    (hchars : ∀ c ∈ randHex.data, c ∈ hexLowerChars) :
    (createNodeRequest s payload randHex now).1.status = "pending" ∧
    matchesReqPattern (createNodeRequest s payload randHex now).1.tracking_id = true := by
  constructor
  · rfl
  · have hdata : ((createNodeRequest s payload randHex now).1.tracking_id).data =
        'R' :: 'E' :: 'Q' :: '-' :: (randHex.data.map Char.toUpper) := by
      show ("REQ-" ++ jsToUpperCase randHex).data = _
      rw [String.data_append]
      rfl
    have key : ∀ c ∈ hexLowerChars,
        ((Char.toUpper c).isDigit ||
          ('A' ≤ Char.toUpper c && Char.toUpper c ≤ 'F')) = true := by decide
    show matchesReqPatternL ((createNodeRequest s payload randHex now).1.tracking_id).data = true
    rw [hdata]
    simp only [matchesReqPatternL, List.length_map, hlen, beq_self_eq_true, Bool.true_and]
    rw [List.all_eq_true]
    intro c hc
    rcases List.mem_map.mp hc with ⟨b, hb, rfl⟩
    exact key _ (hchars b hb)

/-- C7 witness: a concrete submission gets status pending and a matching
tracking id. -/
theorem C7_pending_status_and_tracking_pattern_witness :
    (createNodeRequest Db.empty ⟨"rpc", "Test RPC", "https://rpc.test.io", none, none, none⟩
        "a1b2c3d4" 0).1.status = "pending" ∧
    matchesReqPattern (createNodeRequest Db.empty
        ⟨"rpc", "Test RPC", "https://rpc.test.io", none, none, none⟩
        "a1b2c3d4" 0).1.tracking_id = true :=
  C7_pending_status_and_tracking_pattern Db.empty
    ⟨"rpc", "Test RPC", "https://rpc.test.io", none, none, none⟩
    "a1b2c3d4" 0 (by decide) (by decide)

/-- C1: for every existing NodeRequest with node_type bootnode and
endpoint E, `approveAndCreateNode` returns success, appends exactly one
new BootNode row whose enode equals E, and sets the request status to
approved. -/
theorem C1_approve_bootnode_materializes (s : Db) (r : NodeRequest) (now : Nat)
    (hr : getNodeRequestById s r.id = some r) (hty : r.node_type = "bootnode") :
    (approveAndCreateNode s r.id now).1 = ⟨true, none⟩ ∧
    (∃ b : BootNode,
      (approveAndCreateNode s r.id now).2.boot_nodes = s.boot_nodes ++ [b] ∧
      b.enode = r.endpoint ∧ b.name = r.name) ∧
    (∃ q : NodeRequest,
      getNodeRequestById (approveAndCreateNode s r.id now).2 r.id = some q ∧
      q.status = "approved") := by
  have hstep : approveAndCreateNode s r.id now =
      (⟨true, none⟩,
        (updateNodeRequestStatus (createBootNode s r.name r.endpoint now).2
          r.id "approved" none now).2) := by
    rw [approveAndCreateNode_found s r.id now r hr, hty]
    rfl
  have hr1 : getNodeRequestById (createBootNode s r.name r.endpoint now).2 r.id =
      some r := hr
  have hr1' : (createBootNode s r.name r.endpoint now).2.node_requests.find?
      (fun q => q.id == r.id) = some r := hr
  refine ⟨?_, ?_, ?_⟩
  · rw [hstep]
  · rw [hstep, updateNRS_found_snd _ _ _ _ _ r hr1]
    exact ⟨_, rfl, rfl, rfl⟩
  · rw [hstep, updateNRS_found_snd _ _ _ _ _ r hr1, getNodeRequestById_set_nr,
      getNodeRequestById_map_patch, hr1']
    refine ⟨_, rfl, ?_⟩
    unfold applyStatusPatch
    rw [if_pos rfl]

/-- C1 witness: the sample bootnode request, approved concretely. -/
theorem C1_approve_bootnode_materializes_witness :
    (approveAndCreateNode sampleDb 1 tJan15at10).1 = ⟨true, none⟩ ∧
    (∃ b : BootNode,
      (approveAndCreateNode sampleDb 1 tJan15at10).2.boot_nodes =
        sampleDb.boot_nodes ++ [b] ∧
      b.enode = sampleBootRequest.endpoint ∧ b.name = sampleBootRequest.name) ∧
    (∃ q : NodeRequest,
      getNodeRequestById (approveAndCreateNode sampleDb 1 tJan15at10).2 1 = some q ∧
      q.status = "approved") :=
  C1_approve_bootnode_materializes sampleDb sampleBootRequest tJan15at10 rfl rfl

/-- C2 (amended): a non-rejected request for an endpoint makes
`isEndpointDuplicate` report a duplicate; when every request for the
endpoint is rejected and the directory table for the node type holds no
match, no duplicate is reported; and after a request is approved and
materialized, a duplicate is still reported — via the request surface
(location "pending request"), since the approved request row itself still
matches the first check, not via the directory-table surface. -/
theorem C2_duplicate_check (s : Db) (E nt : String) :
    (∀ r ∈ s.node_requests, r.endpoint = E →
      (r.status = "pending" ∨ r.status = "approved") →
      (isEndpointDuplicate s E nt).found = true) ∧
    ((∀ r ∈ s.node_requests, r.endpoint = E → r.status = "rejected") →
      (nt = "rpc" → ∀ e ∈ s.rpc_endpoints, e.endpoint ≠ E) →
      (nt = "bootnode" → ∀ b ∈ s.boot_nodes, b.enode ≠ E) →
      (nt = "beacon" → ∀ b ∈ s.beacon_nodes, b.endpoint ≠ some E) →
      isEndpointDuplicate s E nt = ⟨false, ""⟩) ∧
    (∀ (r : NodeRequest) (now : Nat), getNodeRequestById s r.id = some r →
      r.endpoint = E →
      isEndpointDuplicate (approveAndCreateNode s r.id now).2 E r.node_type =
        ⟨true, "pending request"⟩) := by
  refine ⟨?_, ?_, ?_⟩
  · intro r hmem hE hst
    have hp : (r.endpoint == E && r.status != "rejected") = true := by
      rw [Bool.and_eq_true]
      refine ⟨by rw [hE]; exact beq_self_eq_true E, ?_⟩
      rcases hst with h | h <;> rw [h] <;> decide
    obtain ⟨x, hx⟩ := exists_find?_eq_some_of_mem
      (fun q => q.endpoint == E && q.status != "rejected") s.node_requests r hmem hp
    unfold isEndpointDuplicate
    rw [hx]
  · intro hall hrpc hboot hbeacon
    have hnone : s.node_requests.find?
        (fun q => q.endpoint == E && q.status != "rejected") = none := by
      rw [List.find?_eq_none]
      intro x hx hpx
      rw [Bool.and_eq_true] at hpx
      obtain ⟨h1, h2⟩ := hpx
      have hxs : x.status = "rejected" := hall x hx (by simpa using h1)
      rw [hxs] at h2
      exact absurd h2 (by decide)
    unfold isEndpointDuplicate
    rw [hnone]
    by_cases h1 : nt = "rpc"
    · have hd : s.rpc_endpoints.find? (fun e => e.endpoint == E) = none := by
        rw [List.find?_eq_none]
        intro x hx hpx
        exact hrpc h1 x hx (by simpa using hpx)
      rw [if_pos h1, hd]
    · rw [if_neg h1]
      by_cases h2 : nt = "bootnode"
      · have hd : s.boot_nodes.find? (fun b => b.enode == E) = none := by
          rw [List.find?_eq_none]
          intro x hx hpx
          exact hboot h2 x hx (by simpa using hpx)
        rw [if_pos h2, hd]
      · rw [if_neg h2]
        by_cases h3 : nt = "beacon"
        · have hd : s.beacon_nodes.find? (fun b => b.endpoint == some E) = none := by
            rw [List.find?_eq_none]
            intro x hx hpx
            exact hbeacon h3 x hx (by simpa using hpx)
          rw [if_pos h3, hd]
        · rw [if_neg h3]
  · intro r now hr hE
    subst hE
    rw [approveAndCreateNode_found s r.id now r hr]
    have hS1 : getNodeRequestById
        (if r.node_type = "rpc" then
          (createRpcEndpoint s r.name r.endpoint "community" now).2
        else if r.node_type = "bootnode" then
          (createBootNode s r.name r.endpoint now).2
        else if r.node_type = "beacon" then
          (createBeaconNode s r.name (some r.endpoint) (some "") now).2
        else s) r.id = some r := by
      split_ifs <;> exact hr
    exact dup_after_update _ r.id now r r.node_type hS1

/-- C2 witness: the three parts of the duplicate-check claim at concrete
states (a pending request; a rejected-only history; the state after a
concrete approval). -/
theorem C2_duplicate_check_witness :
    (isEndpointDuplicate sampleDb "enode://abc@1.2.3.4:30303" "bootnode").found = true ∧
    isEndpointDuplicate rejectedDb "enode://abc@1.2.3.4:30303" "bootnode" = ⟨false, ""⟩ ∧
    isEndpointDuplicate (approveAndCreateNode sampleDb 1 tJan15at10).2
      "enode://abc@1.2.3.4:30303" "bootnode" = ⟨true, "pending request"⟩ := by
  refine ⟨?_, ?_, ?_⟩
  · exact (C2_duplicate_check sampleDb "enode://abc@1.2.3.4:30303" "bootnode").1
      sampleBootRequest (by decide) rfl (Or.inl rfl)
  · exact (C2_duplicate_check rejectedDb "enode://abc@1.2.3.4:30303" "bootnode").2.1
      (by decide) (by decide) (by decide) (by decide)
  · exact (C2_duplicate_check sampleDb "enode://abc@1.2.3.4:30303" "bootnode").2.2
      sampleBootRequest tJan15at10 rfl rfl

/-- C2 counterexample: after the sample bootnode request is approved and
its BootNode row materialized, the duplicate is reported with location
"pending request" — the request surface — not via the directory-table
("Boot nodes") surface as the claim states. -/
theorem C2_counterexample_surface :
    isEndpointDuplicate (approveAndCreateNode sampleDb 1 tJan15at10).2
      "enode://abc@1.2.3.4:30303" "bootnode" = ⟨true, "pending request"⟩ ∧
    "pending request" ≠ "Boot nodes" := ⟨rfl, by decide⟩

/-- C4 (amended): both Approval Engine transitions return a
success/failure result.  A request-not-found failure mutates nothing —
`approveAndCreateNode` (under any fault oracle) and
`updateNodeRequestStatus` return the state untouched — and against a
healthy store a failure result implies the state is unchanged.  But when
a step throws mid-transition (a storage fault after the directory
insert), the catch returns a failure result while the directory row is
already persisted and the request is still unapproved: failure does not
in general imply that no state was mutated. -/
theorem C4_failure_behavior (s : Db) (rid : Nat) (st : String)
    (notes : Option String) (now : Nat) (fault : Option String) :
    (getNodeRequestById s rid = none →
      approveAndCreateNodeWith s fault rid now =
        (⟨false, some "Request not found"⟩, s)) ∧
    ((approveAndCreateNode s rid now).1.success = false →
      (approveAndCreateNode s rid now).2 = s) ∧
    ((updateNodeRequestStatus s rid st notes now).1 = none →
      (updateNodeRequestStatus s rid st notes now).2 = s) ∧
    (∀ (r : NodeRequest) (msg : String), getNodeRequestById s rid = some r →
      r.node_type = "bootnode" →
      (approveAndCreateNodeWith s (some msg) rid now).1 = ⟨false, some msg⟩ ∧
      (∃ b : BootNode,
        (approveAndCreateNodeWith s (some msg) rid now).2.boot_nodes =
          s.boot_nodes ++ [b]) ∧
      getNodeRequestById (approveAndCreateNodeWith s (some msg) rid now).2 rid =
        some r) := by
  refine ⟨fun hr => approveAndCreateNodeWith_not_found s fault rid now hr,
    ?_, ?_, ?_⟩
  · intro hfail
    cases hr : getNodeRequestById s rid with
    | none => rw [approveAndCreateNode_not_found s rid now hr]
    | some r =>
      rw [approveAndCreateNode_found s rid now r hr] at hfail
      exact Bool.noConfusion hfail
  · intro hnone
    cases hr : getNodeRequestById s rid with
    | none => rw [updateNRS_not_found s rid st notes now hr]
    | some r =>
      rw [updateNRS_found_fst s rid st notes now r hr] at hnone
      exact Option.noConfusion hnone
  · intro r msg hr hty
    have hstep : approveAndCreateNodeWith s (some msg) rid now =
        (⟨false, some msg⟩, (createBootNode s r.name r.endpoint now).2) := by
      rw [approveAndCreateNodeWith_fault_found s rid now r msg hr, hty]
      rfl
    refine ⟨by rw [hstep], ?_, ?_⟩
    · rw [hstep]
      exact ⟨_, rfl⟩
    · rw [hstep]
      exact hr

/-- C4 witness: not-found failures leave the empty database unchanged,
and a concrete injected fault on the sample bootnode request yields a
failure result alongside the persisted directory row and the untouched
request. -/
theorem C4_failure_behavior_witness :
    approveAndCreateNodeWith Db.empty none 5 0 =
      (⟨false, some "Request not found"⟩, Db.empty) ∧
    (approveAndCreateNode Db.empty 5 0).2 = Db.empty ∧
    (updateNodeRequestStatus Db.empty 5 "approved" none 0).2 = Db.empty ∧
    ((approveAndCreateNodeWith sampleDb (some "boom") 1 tJan15at10).1 =
        ⟨false, some "boom"⟩ ∧
      (∃ b : BootNode,
        (approveAndCreateNodeWith sampleDb (some "boom") 1 tJan15at10).2.boot_nodes =
          sampleDb.boot_nodes ++ [b]) ∧
      getNodeRequestById
        (approveAndCreateNodeWith sampleDb (some "boom") 1 tJan15at10).2 1 =
        some sampleBootRequest) :=
  ⟨(C4_failure_behavior Db.empty 5 "approved" none 0 none).1 rfl,
   (C4_failure_behavior Db.empty 5 "approved" none 0 none).2.1 rfl,
   (C4_failure_behavior Db.empty 5 "approved" none 0 none).2.2.1 rfl,
   (C4_failure_behavior sampleDb 1 "approved" none tJan15at10 none).2.2.2
     sampleBootRequest "boom" rfl rfl⟩

/-- C4 counterexample: with the status-update statement throwing after
the directory insert (caught by the source and returned as a failure
result), the transition reports failure while the new BootNode row is
already persisted and the request is still pending — a failing
transition that did mutate observable state, refuting the claim that no
directory row is created whenever the result is failure. -/
theorem C4_counterexample_partial_mutation :
    (approveAndCreateNodeWith sampleDb (some "SqliteError: disk I-O error")
      1 tJan15at10).1.success = false ∧
    (approveAndCreateNodeWith sampleDb (some "SqliteError: disk I-O error")
      1 tJan15at10).2.boot_nodes =
      [⟨1, "BN", "enode://abc@1.2.3.4:30303", none, "active", none, 0, none,
        "2025-01-15 10:00:00", "2025-01-15 10:00:00"⟩] ∧
    (approveAndCreateNodeWith sampleDb (some "SqliteError: disk I-O error")
      1 tJan15at10).2.node_requests = sampleDb.node_requests ∧
    (approveAndCreateNodeWith sampleDb (some "SqliteError: disk I-O error")
      1 tJan15at10).2 ≠ sampleDb :=
  ⟨rfl, by decide, by decide, by decide⟩

/-- C10 (amended): for an existing id, `updateNodeRequestStatus` rewrites
only status, admin_notes and updated_at; a supplied-notes-free update
keeps a non-null admin_notes value but replaces a NULL admin_notes with
the empty string; every other field of the row, and every other row, is
unchanged; an unknown id returns null and changes nothing. -/
theorem C10_update_frame (s : Db) (id : Nat) (st : String)
    (notes : Option String) (now : Nat) :
    (getNodeRequestById s id = none →
      updateNodeRequestStatus s id st notes now = (none, s)) ∧
    (∀ r, getNodeRequestById s id = some r →
      ∃ q, (updateNodeRequestStatus s id st notes now).1 = some q ∧
        q.status = st ∧
        q.tracking_id = r.tracking_id ∧ q.node_type = r.node_type ∧
        q.name = r.name ∧ q.endpoint = r.endpoint ∧ q.location = r.location ∧
        q.contact_email = r.contact_email ∧ q.contact_name = r.contact_name ∧
        q.description = r.description ∧ q.created_at = r.created_at ∧
        q.updated_at = sqliteNow now ∧
        (notes = none → ∀ a, r.admin_notes = some a → q.admin_notes = some a) ∧
        (notes = none → r.admin_notes = none → q.admin_notes = some "")) ∧
    (∀ r, getNodeRequestById s id = some r →
      ∀ p ∈ s.node_requests, p.id ≠ id →
        p ∈ (updateNodeRequestStatus s id st notes now).2.node_requests) := by
  refine ⟨fun hr => updateNRS_not_found s id st notes now hr, ?_, ?_⟩
  · intro r hr
    refine ⟨_, updateNRS_found_fst s id st notes now r hr, rfl, rfl, rfl, rfl,
      rfl, rfl, rfl, rfl, rfl, rfl, rfl, ?_, ?_⟩
    · intro hn a ha
      subst hn
      rw [ha]
      show some (jsOrO none (jsOrO (some a) "")) = some a
      by_cases h : a = "" <;> simp [jsOrO, jsOrS, h]
    · intro hn ha
      subst hn
      rw [ha]
      rfl
  · intro r hr p hp hne
    rw [updateNRS_found_snd s id st notes now r hr]
    have hfp : applyStatusPatch id st (jsOrO notes (jsOrO r.admin_notes ""))
        (sqliteNow now) p = p := by
      unfold applyStatusPatch
      rw [if_neg hne]
    exact hfp ▸ List.mem_map_of_mem _ hp

/-- C10 witness: unknown-id update is a no-op on the sample state, and a
concrete update rewrites status while preserving the endpoint. -/
theorem C10_update_frame_witness :
    updateNodeRequestStatus sampleDb 99 "approved" none 0 = (none, sampleDb) ∧
    ∃ q, (updateNodeRequestStatus sampleDb 1 "approved" none 0).1 = some q ∧
      q.status = "approved" ∧ q.endpoint = sampleBootRequest.endpoint := by
  refine ⟨(C10_update_frame sampleDb 99 "approved" none 0).1 rfl, ?_⟩
  obtain ⟨q, h1, h2, _, _, _, h6, _⟩ :=
    (C10_update_frame sampleDb 1 "approved" none 0).2.1 sampleBootRequest rfl
  exact ⟨q, h1, h2, h6⟩

/-- C10 counterexample: with no admin notes supplied, a NULL admin_notes
is not preserved — it becomes the empty string. -/
theorem C10_counterexample_null_notes :
    sampleBootRequest.admin_notes = none ∧
    ((updateNodeRequestStatus sampleDb 1 "approved" none 0).2.node_requests.map
      (fun q => q.admin_notes)) = [some ""] := ⟨rfl, rfl⟩

/-- C3 (evaluation of the code at the failing input): a session stored by
`createSession` with expiry 2025-01-15T10:00:00Z is still returned by
`getSession` one second after that expiry.  The stored ISO-8601 string
(T separator) compares greater than the SQLite datetime(now) rendering
(space separator) under TEXT comparison whenever the UTC dates agree, so
a same-day expired session validates. -/
theorem C3_expired_session_still_validates :
    toISOString tJan15at10 = "2025-01-15T10:00:00.000Z" ∧
    sqliteNow (tJan15at10 + 1000) = "2025-01-15 10:00:01" ∧
    c3created.sessions =
      [⟨"tok", 1, "2025-01-15T10:00:00.000Z", "2025-01-08 10:00:00"⟩] ∧
    getSession c3created "tok" (tJan15at10 + 1000) =
      some ⟨"tok", 1, "2025-01-15T10:00:00.000Z", "2025-01-08 10:00:00"⟩ :=
  ⟨rfl, rfl, by decide, by decide⟩

/-- C8 (evaluation of the code at the failing input): creating a session
at 2025-01-15 09:00:00 UTC sets the new expiry to exactly now + 7 days,
but the piggy-backed cleanup fails to delete the session that expired at
2025-01-15T08:00:00Z one hour earlier: its ISO-8601 expiry string
compares greater than the SQLite datetime(now) string, so every session
that expired on the current UTC day survives the cleanup. -/
theorem C8_cleanup_misses_same_day_expired :
    toISOString 1736928000000 = "2025-01-15T08:00:00.000Z" ∧
    sqliteNow 1736931600000 = "2025-01-15 09:00:00" ∧
    1736928000000 < 1736931600000 ∧
    toISOString (1736931600000 + sevenDaysMs) = "2025-01-22T09:00:00.000Z" ∧
    c8post.sessions =
      [⟨"old", 7, "2025-01-15T08:00:00.000Z", "2025-01-08 08:00:00"⟩,
       ⟨"newid", 1, "2025-01-22T09:00:00.000Z", "2025-01-15 09:00:00"⟩] :=
  ⟨rfl, rfl, by decide, rfl, by decide⟩

/-- C9 (amended): creating a user with an existing username fails —
`createUser` returns null with the state unchanged — but this failure is
not distinguishable from a generic database failure, because `createUser`
maps every insert error to null; the distinguishable "Username already
exists" error exists only in `updateUsername`, which also leaves the
state unchanged. -/
theorem C9_duplicate_username (s : Db) (H : String → String)
    (uname pw salt : String) (now : Nat) (uid : Nat) (u : User)
    (hmem : u ∈ s.users) (hname : u.username = uname) :
    createUser s none H uname pw salt now = (none, s) ∧
    (∀ msg, (createUser s (some msg) H uname pw salt now).1 = none) ∧
    ((∀ v ∈ s.users, v.username = uname → v.id ≠ uid) →
      updateUsername s uid uname now =
        (⟨false, some "Username already exists"⟩, s)) := by
  have hbu : (u.username == uname) = true := by
    rw [hname]
    exact beq_self_eq_true _
  have hany : s.users.any (fun v => v.username == uname) = true :=
    List.any_eq_true.mpr ⟨u, hmem, hbu⟩
  refine ⟨?_, fun msg => rfl, ?_⟩
  · unfold createUser usersInsert
    rw [hany]
    rfl
  · intro hblock
    obtain ⟨v, hv⟩ := exists_find?_eq_some_of_mem (fun w => w.username == uname)
      s.users u hmem hbu
    have hvmem : v ∈ s.users := List.mem_of_find?_eq_some hv
    have hvname : v.username = uname := by simpa using List.find?_some hv
    have hvid : v.id ≠ uid := hblock v hvmem hvname
    have hv' : getUserByUsername s uname = some v := hv
    unfold updateUsername
    rw [hv']
    show (if v.id ≠ uid then (⟨false, some "Username already exists"⟩, s)
      else runUsernameUpdate s uid uname now) = _
    rw [if_pos hvid]

/-- C9 witness: the concrete duplicate creation fails with the state
unchanged, and the concrete duplicate rename gets the distinguishable
error. -/
theorem C9_duplicate_username_witness :
    createUser adminDb none digest64 "admin" "pw" "salt" 0 = (none, adminDb) ∧
    updateUsername adminDb 2 "admin" 0 =
      (⟨false, some "Username already exists"⟩, adminDb) := by
  have h := C9_duplicate_username adminDb digest64 "admin" "pw" "salt" 0 2
    adminUser (by decide) rfl
  exact ⟨h.1, h.2.2 (by decide)⟩

/-- C9 counterexample: the caller-visible value that `createUser` returns
for a duplicate username is null — identical to what it returns for a
generic storage failure — so the duplicate failure is not surfaced as a
distinguishable error at creation. -/
theorem C9_counterexample_indistinguishable :
    (createUser adminDb none digest64 "admin" "pw" "salt" 0).1 = none ∧
    (createUser Db.empty (some "SqliteError: disk I-O error") digest64
      "bob" "pw" "salt" 0).1 = none ∧
    (createUser adminDb none digest64 "admin" "pw" "salt" 0).2 = adminDb :=
  ⟨rfl, rfl, rfl⟩

end Labchain
